import Mathlib

/-!
Verification of the mdb interactive trace debugger engine
(src/trace/mercury_trace_internal.c) against its specification.

The development shallowly embeds the C functions under their source names.
Strings are Lean `String`s; the tokenizer works on `List Char` (the line
buffer).  Machine integers that can go negative are `Int`, non-negative
counters are `Nat`.  Fallible C functions that report errors through a
`const char *` result become `Except String`.  The few helpers that live
outside the repository snapshot (ctype macros, `MR_trace_is_natural_number`
from the trace utility module, the alias table accessors, the spy-point
mutators, the port/determinism macros and getopt) are modelled from the
specification, as marked in their doc comments.
-/

namespace Mercury

/-- Modelled from the spec: the ctype `isspace` classification used by the
tokenizer (`MR_isspace` is defined outside the snapshot); ASCII whitespace. -/
def MR_isspace (c : Char) : Bool :=
  c == ' ' || c == '\t' || c == '\n' || c == '\x0b' || c == '\x0c' || c == '\r'

/-- Modelled from the spec: the ctype `isdigit` classification (`MR_isdigit`
is defined outside the snapshot); ASCII decimal digits. -/
def MR_isdigit (c : Char) : Bool :=
  48 ≤ c.toNat && c.toNat ≤ 57

/-- Decimal value of a digit string, accumulated left to right. -/
def MR_digits_value (ds : List Char) : Nat :=
  ds.foldl (fun a c => a * 10 + (c.toNat - 48)) 0

/-- Modelled from the spec: `MR_trace_is_natural_number` (defined in the trace
utility module, outside the snapshot) recognizes a word consisting entirely of
decimal digits, at least one, and yields its value. -/
def MR_trace_is_natural_number (w : String) : Option Nat :=
  if !w.data.isEmpty && w.data.all MR_isdigit then
    some (MR_digits_value w.data)
  else
    none

/-- `SINGLE_QUOTE_CHAR` from the source (written via its code point). -/
def SINGLE_QUOTE_CHAR : Char := Char.ofNat 39

/-- `DOUBLE_QUOTE_CHAR` from the source. -/
def DOUBLE_QUOTE_CHAR : Char := '"'

/-- `ESCAPE_CHAR` from the source. -/
def ESCAPE_CHAR : Char := '\\'

/-- Keeping one character in the word under construction (the C code's
in-place copy `line[char_pos - lag] = line[char_pos]`); errors pass through. -/
def MR_cons_word (c : Char) :
    Except String (List Char × List Char) → Except String (List Char × List Char)
  | .error e => .error e
  | .ok (w, r) => .ok (c :: w, r)

/-- `MR_trace_break_off_one_word`: consume one word from the line, honouring
single quotes (stripped), double quotes (kept in the word, but suppressing
word breaks while open) and backslash escapes (escape character stripped,
escaped character kept literally).  Returns the word contents and the rest of
the line, or the error message the C function returns.  The in-place `lag`
compaction of the C code corresponds to which characters are kept in the
produced word via `MR_cons_word`. -/
def MR_trace_break_off_one_word : List Char → Bool → Bool → Except String (List Char × List Char)
  | [], sq, dq =>
    if sq then .error "unmatched single quote"
    else if dq then .error "unmatched double quote"
    else .ok ([], [])
  | c :: rest, sq, dq =>
    if !sq && !dq && MR_isspace c then
      .ok ([], rest)
    else if !dq && c == SINGLE_QUOTE_CHAR then
      MR_trace_break_off_one_word rest (!sq) dq
    else if !sq && c == DOUBLE_QUOTE_CHAR then
      MR_cons_word c (MR_trace_break_off_one_word rest sq (!dq))
    else if c == ESCAPE_CHAR then
      match rest with
      | [] => .error "bad backslash"
      | d :: rest2 => MR_cons_word d (MR_trace_break_off_one_word rest2 sq dq)
    else
      MR_cons_word c (MR_trace_break_off_one_word rest sq dq)

/-- The loop of `MR_trace_break_into_words`: each iteration skips whitespace
and breaks off one word.  The `fuel` argument only bounds the number of
iterations so that the recursion is structural; since every word consumes at
least one character of the line, the wrapper's `line.length` fuel is never
exhausted, and any tokenizer error surfaces independently of the fuel. -/
def MR_trace_break_into_words_go (fuel : Nat) (line : List Char) : Except String (List String) :=
  match line.dropWhile MR_isspace with
  | [] => Except.ok []
  | c :: cs =>
    match MR_trace_break_off_one_word (c :: cs) false false with
    | .error e => .error e
    | .ok (w, r) =>
      match fuel with
      | 0 => Except.ok [String.mk w]
      | fuel + 1 =>
        match MR_trace_break_into_words_go fuel r with
        | .error e => .error e
        | .ok ws => .ok (String.mk w :: ws)

/-- `MR_trace_break_into_words`: split the whole line into words separated by
unquoted whitespace, propagating any tokenizer error. -/
def MR_trace_break_into_words (line : List Char) : Except String (List String) :=
  MR_trace_break_into_words_go line.length line

/-- `MR_NUMBER_LEN` from the source. -/
def MR_NUMBER_LEN : Nat := 80

/-- The swap step at the end of `MR_trace_parse_line`: if the first word is a
natural number and the second is not, exchange them so the command word comes
first. -/
def MR_trace_parse_line_swap : List String → List String
  | w0 :: w1 :: ws =>
    if (MR_trace_is_natural_number w0).isSome && !(MR_trace_is_natural_number w1).isSome then
      w1 :: w0 :: ws
    else
      w0 :: w1 :: ws
  | ws => ws

/-- The word-level body of `MR_trace_parse_line`: split a numeric prefix of
the first word into its own leading word (rejecting prefixes longer than
`MR_NUMBER_LEN`), then apply the swap step. -/
def MR_trace_parse_line_words : List String → Except String (List String)
  | [] => Except.ok []
  | w :: ws =>
    if (w.data.headD ' ' |> MR_isdigit) then
      let ds := w.data.takeWhile MR_isdigit
      let rest := w.data.dropWhile MR_isdigit
      if ds.length > MR_NUMBER_LEN then
        Except.error "too large a number"
      else if !rest.isEmpty then
        Except.ok (MR_trace_parse_line_swap (String.mk ds :: String.mk rest :: ws))
      else
        Except.ok (MR_trace_parse_line_swap (w :: ws))
    else
      Except.ok (MR_trace_parse_line_swap (w :: ws))

/-- `MR_trace_parse_line`: tokenize the line and normalize a numeric prefix. -/
def MR_trace_parse_line (line : String) : Except String (List String) :=
  match MR_trace_break_into_words line.data with
  | .error e => .error e
  | .ok ws => MR_trace_parse_line_words ws

example : MR_trace_parse_line "3 step" = Except.ok ["step", "3"] := rfl
example : MR_trace_parse_line "step 3" = Except.ok ["step", "3"] := rfl
example : MR_trace_parse_line "3step" = Except.ok ["step", "3"] := rfl
example : MR_trace_break_into_words "abc".data = Except.ok ["abc"] := rfl

/-- Modelled from the spec: the alias table maps an alias key (a command word,
or the reserved keys "EMPTY" and "NUMBER") to its replacement words. -/
def MR_Alias_Table : Type := List (String × List String)

/-- Modelled from the spec: `MR_trace_lookup_alias` (defined in the alias
module, outside the snapshot) finds the replacement word sequence registered
for a key, if any. -/
def MR_trace_lookup_alias (t : MR_Alias_Table) (key : String) : Option (List String) :=
  match List.find? (fun p => p.1 == key) t with
  | none => none
  | some p => some p.2

/-- `MR_trace_expand_aliases`: pick the lookup key ("EMPTY" for no words,
"NUMBER" when word one is a natural number, word one otherwise) and, when an
alias is registered, splice its body in place of the consumed prefix (word
one for named aliases, nothing for EMPTY/NUMBER).  The index arithmetic
mirrors the two copying loops of the C code: position `i` of the result is
`body[i]` for `i < body.length` and `words[i - body.length + copyStart]`
otherwise. -/
def MR_trace_expand_aliases (aliases : MR_Alias_Table) (words : List String) : List String :=
  let key :=
    if words.length == 0 then "EMPTY"
    else if (MR_trace_is_natural_number (words.headD "")).isSome then "NUMBER"
    else words.headD ""
  let copyStart :=
    if words.length == 0 then 0
    else if (MR_trace_is_natural_number (words.headD "")).isSome then 0
    else 1
  match MR_trace_lookup_alias aliases key with
  | none => words
  | some body =>
    (List.range (words.length + body.length - copyStart)).map (fun i =>
      if i < body.length then body.getD i ""
      else words.getD (i - body.length + copyStart) "")

/-- One row of `MR_trace_command_infos`.  The completion-related fields of the
C structure (`MR_cmd_arg_strings`, `MR_cmd_arg_completer`) are omitted: the
spec treats completion as a peripheral concern and no claim depends on it.
The handler function pointer is represented by the handler's name, `none`
standing for a NULL pointer. -/
structure MR_Trace_Command_Info where
  MR_cmd_category : Option String
  MR_cmd_name : String
  MR_cmd_function : Option String
deriving DecidableEq, Repr

set_option maxHeartbeats 1000000 in
/-- `MR_trace_command_infos`: the static command dispatch table, transcribed
row by row (the all-NULL terminator row of the C array is represented by the
end of the list). -/
def MR_trace_command_infos : List MR_Trace_Command_Info := [
  ⟨some "forward", "step", some "MR_trace_cmd_step"⟩,
  ⟨some "forward", "goto", some "MR_trace_cmd_goto"⟩,
  ⟨some "forward", "next", some "MR_trace_cmd_next"⟩,
  ⟨some "forward", "finish", some "MR_trace_cmd_finish"⟩,
  ⟨some "forward", "exception", some "MR_trace_cmd_exception"⟩,
  ⟨some "forward", "return", some "MR_trace_cmd_return"⟩,
  ⟨some "forward", "forward", some "MR_trace_cmd_forward"⟩,
  ⟨some "forward", "mindepth", some "MR_trace_cmd_mindepth"⟩,
  ⟨some "forward", "maxdepth", some "MR_trace_cmd_maxdepth"⟩,
  ⟨some "forward", "continue", some "MR_trace_cmd_continue"⟩,
  ⟨some "backward", "retry", some "MR_trace_cmd_retry"⟩,
  ⟨some "browsing", "level", some "MR_trace_cmd_level"⟩,
  ⟨some "browsing", "up", some "MR_trace_cmd_up"⟩,
  ⟨some "browsing", "down", some "MR_trace_cmd_down"⟩,
  ⟨some "browsing", "vars", some "MR_trace_cmd_vars"⟩,
  ⟨some "browsing", "held_vars", some "MR_trace_cmd_held_vars"⟩,
  ⟨some "browsing", "print", some "MR_trace_cmd_print"⟩,
  ⟨some "browsing", "browse", some "MR_trace_cmd_browse"⟩,
  ⟨some "browsing", "stack", some "MR_trace_cmd_stack"⟩,
  ⟨some "browsing", "current", some "MR_trace_cmd_current"⟩,
  ⟨some "browsing", "view", some "MR_trace_cmd_view"⟩,
  ⟨some "browsing", "hold", some "MR_trace_cmd_hold"⟩,
  ⟨some "browsing", "diff", some "MR_trace_cmd_diff"⟩,
  ⟨some "browsing", "dump", some "MR_trace_cmd_dump"⟩,
  ⟨some "browsing", "list", some "MR_trace_cmd_list"⟩,
  ⟨some "browsing", "push_list_dir", some "MR_trace_cmd_push_list_dir"⟩,
  ⟨some "browsing", "pop_list_dir", some "MR_trace_cmd_pop_list_dir"⟩,
  ⟨some "breakpoint", "break", some "MR_trace_cmd_break"⟩,
  ⟨some "breakpoint", "condition", some "MR_trace_cmd_condition"⟩,
  ⟨some "breakpoint", "ignore", some "MR_trace_cmd_ignore"⟩,
  ⟨some "breakpoint", "break_print", some "MR_trace_cmd_break_print"⟩,
  ⟨some "breakpoint", "enable", some "MR_trace_cmd_enable"⟩,
  ⟨some "breakpoint", "disable", some "MR_trace_cmd_disable"⟩,
  ⟨some "breakpoint", "delete", some "MR_trace_cmd_delete"⟩,
  ⟨some "breakpoint", "register", some "MR_trace_cmd_register"⟩,
  ⟨some "breakpoint", "modules", some "MR_trace_cmd_modules"⟩,
  ⟨some "breakpoint", "procedures", some "MR_trace_cmd_procedures"⟩,
  ⟨some "queries", "query", some "MR_trace_cmd_query"⟩,
  ⟨some "queries", "cc_query", some "MR_trace_cmd_cc_query"⟩,
  ⟨some "queries", "io_query", some "MR_trace_cmd_io_query"⟩,
  ⟨some "table_io", "table_io", some "MR_trace_cmd_table_io"⟩,
  ⟨some "parameter", "printlevel", some "MR_trace_cmd_printlevel"⟩,
  ⟨some "parameter", "mmc_options", some "MR_trace_cmd_mmc_options"⟩,
  ⟨some "parameter", "scroll", some "MR_trace_cmd_scroll"⟩,
  ⟨some "parameter", "stack_default_limit", some "MR_trace_cmd_stack_default_limit"⟩,
  ⟨some "parameter", "context", some "MR_trace_cmd_context"⟩,
  ⟨some "parameter", "goal_paths", some "MR_trace_cmd_goal_paths"⟩,
  ⟨some "parameter", "scope", some "MR_trace_cmd_scope"⟩,
  ⟨some "parameter", "echo", some "MR_trace_cmd_echo"⟩,
  ⟨some "parameter", "alias", some "MR_trace_cmd_alias"⟩,
  ⟨some "parameter", "unalias", some "MR_trace_cmd_unalias"⟩,
  ⟨some "help", "document_category", some "MR_trace_cmd_document_category"⟩,
  ⟨some "help", "document", some "MR_trace_cmd_document"⟩,
  ⟨some "help", "help", some "MR_trace_cmd_help"⟩,
  ⟨some "dd", "dd", some "MR_trace_cmd_dd"⟩,
  ⟨some "dd", "trust", some "MR_trace_cmd_trust"⟩,
  ⟨some "dd", "untrust", some "MR_trace_cmd_untrust"⟩,
  ⟨some "dd", "trusted", some "MR_trace_cmd_trusted"⟩,
  ⟨some "misc", "set", some "MR_trace_cmd_set"⟩,
  ⟨some "misc", "source", some "MR_trace_cmd_source"⟩,
  ⟨some "misc", "save", some "MR_trace_cmd_save"⟩,
  ⟨some "misc", "quit", some "MR_trace_cmd_quit"⟩,
  ⟨some "exp", "histogram_all", some "MR_trace_cmd_histogram_all"⟩,
  ⟨some "exp", "histogram_exp", some "MR_trace_cmd_histogram_exp"⟩,
  ⟨some "exp", "clear_histogram", some "MR_trace_cmd_clear_histogram"⟩,
  ⟨some "exp", "dice", some "MR_trace_cmd_dice"⟩,
  ⟨some "developer", "var_details", some "MR_trace_cmd_var_details"⟩,
  ⟨some "developer", "term_size", some "MR_trace_cmd_term_size"⟩,
  ⟨some "developer", "flag", some "MR_trace_cmd_flag"⟩,
  ⟨some "developer", "subgoal", some "MR_trace_cmd_subgoal"⟩,
  ⟨some "developer", "consumer", some "MR_trace_cmd_consumer"⟩,
  ⟨some "developer", "gen_stack", some "MR_trace_cmd_gen_stack"⟩,
  ⟨some "developer", "cut_stack", some "MR_trace_cmd_cut_stack"⟩,
  ⟨some "developer", "pneg_stack", some "MR_trace_cmd_pneg_stack"⟩,
  ⟨some "developer", "mm_stacks", some "MR_trace_cmd_mm_stacks"⟩,
  ⟨some "developer", "nondet_stack", some "MR_trace_cmd_nondet_stack"⟩,
  ⟨some "developer", "stack_regs", some "MR_trace_cmd_stack_regs"⟩,
  ⟨some "developer", "all_regs", some "MR_trace_cmd_all_regs"⟩,
  ⟨some "developer", "debug_vars", some "MR_trace_cmd_debug_vars"⟩,
  ⟨some "developer", "stats", some "MR_trace_cmd_stats"⟩,
  ⟨some "developer", "print_optionals", some "MR_trace_cmd_print_optionals"⟩,
  ⟨some "developer", "unhide_events", some "MR_trace_cmd_unhide_events"⟩,
  ⟨some "developer", "table", some "MR_trace_cmd_table"⟩,
  ⟨some "developer", "type_ctor", some "MR_trace_cmd_type_ctor"⟩,
  ⟨some "developer", "class_decl", some "MR_trace_cmd_class_decl"⟩,
  ⟨some "developer", "all_type_ctors", some "MR_trace_cmd_all_type_ctors"⟩,
  ⟨some "developer", "all_class_decls", some "MR_trace_cmd_all_class_decls"⟩,
  ⟨some "developer", "all_procedures", some "MR_trace_cmd_all_procedures"⟩,
  ⟨some "developer", "ambiguity", some "MR_trace_cmd_ambiguity"⟩,
  ⟨none, "NUMBER", none⟩,
  ⟨none, "EMPTY", none⟩]

/-- `MR_trace_valid_command`: linear search of the dispatch table by exact
command name, returning the first row whose name matches. -/
def MR_trace_valid_command (word : String) : Option MR_Trace_Command_Info :=
  List.find? (fun info => info.MR_cmd_name == word) MR_trace_command_infos

/-- The two control outcomes a command handler can produce. -/
inductive MR_Next where
  | KEEP_INTERACTING
  | STOP_INTERACTING
deriving DecidableEq, Repr

/-- What `MR_trace_handle_cmd` does with the first word: invoke the table
entry's handler function, invoke a NULL function pointer (the fate of the
"NUMBER"/"EMPTY" pseudo-entries, undefined behaviour in C), or report an
unknown command and keep interacting. -/
inductive MR_Dispatch where
  | call (handler : String)
  | null_handler (name : String)
  | unknown (name : String) (msg : String)
deriving DecidableEq, Repr

/-- `MR_trace_handle_cmd`, reduced to its dispatch decision: look the first
word up in the table; on a hit call the row's handler function pointer
(without checking it for NULL), otherwise print the unknown-command message
and return KEEP_INTERACTING. -/
def MR_trace_handle_cmd (words : List String) : MR_Dispatch :=
  let name := words.headD ""
  match MR_trace_valid_command name with
  | some info =>
    match info.MR_cmd_function with
    | some f => .call f
    | none => .null_handler name
  | none =>
    .unknown name
      ("Unknown command `" ++ name ++ "\x27. Give the command `help\x27 for help.\n")

example : MR_trace_handle_cmd ["NUMBER"] = .null_handler "NUMBER" := rfl
example : MR_trace_handle_cmd ["step"] = .call "MR_trace_cmd_step" := rfl

/-- The engine's command-input state: the session queue of pending lines
(`MR_line_head`, in order; the C code also keeps a tail pointer for O(1)
append, which a Lean list does not need) and the terminal, modelled as the
sequence of results successive reads of `mdb_in` will produce (`none` is
end-of-input).  `MR_trace_internal_interacting` is the flag the C code sets
when a line actually comes from the terminal. -/
structure MR_IO_State where
  MR_line_head : List String
  MR_terminal : List (Option String)
  MR_trace_internal_interacting : Bool
deriving DecidableEq, Repr

/-- `MR_trace_getline_queue`: pop the first pending line, if any. -/
def MR_trace_getline_queue (st : MR_IO_State) : Option String × MR_IO_State :=
  match st.MR_line_head with
  | [] => (none, st)
  | l :: rest => (some l, { st with MR_line_head := rest })

/-- Modelled from the spec: `MR_trace_readline` (line-editing module, outside
the snapshot) performs one blocking read from the command source; `none` is
end-of-input.  The terminal is pre-recorded as the list of read results. -/
def MR_trace_readline (st : MR_IO_State) : Option String × MR_IO_State :=
  match st.MR_terminal with
  | [] => (none, st)
  | l :: rest => (l, { st with MR_terminal := rest })

/-- `MR_trace_getline`: consult the session queue first; only when it is
empty prompt and read from the terminal, marking the session interactive. -/
def MR_trace_getline (st : MR_IO_State) : Option String × MR_IO_State :=
  match MR_trace_getline_queue st with
  | (some l, st2) => (some l, st2)
  | (none, st2) =>
    MR_trace_readline { st2 with MR_trace_internal_interacting := true }

/-- `MR_insert_line_at_head`: push a pending command line onto the front of
the session queue. -/
def MR_insert_line_at_head (contents : String) (st : MR_IO_State) : MR_IO_State :=
  { st with MR_line_head := contents :: st.MR_line_head }

/-- `MR_insert_line_at_tail`: append a pending command line at the back of
the session queue. -/
def MR_insert_line_at_tail (contents : String) (st : MR_IO_State) : MR_IO_State :=
  { st with MR_line_head := st.MR_line_head ++ [contents] }

/-- Number of input items left; each successful `MR_trace_getline` consumes
one, which bounds every read loop. -/
def MR_ioMeasure (st : MR_IO_State) : Nat :=
  st.MR_line_head.length + st.MR_terminal.length

/-- What one call of `MR_trace_continue_line` does to the line suffix it
scans: either it finds an unquoted, unescaped `;` — the line is cut there and
the remainder is to be pushed back onto the session queue, no continuation —
or it reaches the end of the line, reporting the final quote state and
whether a continuation line must be read (open quotes, or a trailing escaped
newline, which is replaced by a space). -/
inductive MR_Continue_Outcome where
  | split (kept : List Char) (pushed : List Char)
  | endline (kept : List Char) (sq : Bool) (dq : Bool) (cont : Bool)
deriving DecidableEq, Repr

/-- `MR_trace_continue_line`, as a function of the scanned characters and the
incoming quote state. -/
def MR_trace_continue_line : List Char → Bool → Bool → MR_Continue_Outcome
  | [], sq, dq => .endline [] sq dq (sq || dq)
  | c :: rest, sq, dq =>
    if c == ESCAPE_CHAR then
      match rest with
      | [] => .endline [' '] sq dq true
      | d :: rest2 =>
        match MR_trace_continue_line rest2 sq dq with
        | .split kept pushed => .split (c :: d :: kept) pushed
        | .endline kept sq2 dq2 cont => .endline (c :: d :: kept) sq2 dq2 cont
    else if !dq && c == SINGLE_QUOTE_CHAR then
      match MR_trace_continue_line rest (!sq) dq with
      | .split kept pushed => .split (c :: kept) pushed
      | .endline kept sq2 dq2 cont => .endline (c :: kept) sq2 dq2 cont
    else if !sq && c == DOUBLE_QUOTE_CHAR then
      match MR_trace_continue_line rest sq (!dq) with
      | .split kept pushed => .split (c :: kept) pushed
      | .endline kept sq2 dq2 cont => .endline (c :: kept) sq2 dq2 cont
    else if !sq && !dq && c == ';' then
      .split [] rest
    else
      match MR_trace_continue_line rest sq dq with
      | .split kept pushed => .split (c :: kept) pushed
      | .endline kept sq2 dq2 cont => .endline (c :: kept) sq2 dq2 cont

/-- The continuation-reading loop of `MR_trace_get_command`: while the line
so far is inside quotes or ended in an escaped newline, read another line
with the `"> "` prompt and append it; stop early on end-of-input.  `fuel`
makes the recursion structural; the wrapper passes `MR_ioMeasure st`, which
suffices because every iteration consumes one input item. -/
def MR_trace_get_command_go (fuel : Nat) (st : MR_IO_State) (acc : List Char) (sq dq : Bool) :
    String × MR_IO_State :=
  match MR_trace_getline st with
  | (none, st2) => (String.mk acc, st2)
  | (some line, st2) =>
    match MR_trace_continue_line line.data sq dq with
    | .split kept pushed =>
      (String.mk (acc ++ kept), MR_insert_line_at_head (String.mk pushed) st2)
    | .endline kept sq2 dq2 cont =>
      if cont then
        match fuel with
        | 0 => (String.mk (acc ++ kept), st2)
        | fuel + 1 => MR_trace_get_command_go fuel st2 (acc ++ kept) sq2 dq2
      else
        (String.mk (acc ++ kept), st2)

/-- `MR_trace_get_command`: read the next command line; on end-of-input at
the start of a line return the command `"quit"`; cut the line at an unquoted
`;`, pushing the remainder back; read continuation lines while quotes are
open or the newline was escaped. -/
def MR_trace_get_command (st : MR_IO_State) : String × MR_IO_State :=
  match MR_trace_getline st with
  | (none, st2) => ("quit", st2)
  | (some line, st2) =>
    match MR_trace_continue_line line.data false false with
    | .split kept pushed =>
      (String.mk kept, MR_insert_line_at_head (String.mk pushed) st2)
    | .endline kept sq dq cont =>
      if cont then
        MR_trace_get_command_go (MR_ioMeasure st2) st2 kept sq dq
      else
        (String.mk kept, st2)

example :
    MR_trace_get_command ⟨[], [some "a;b c"], false⟩ =
      ("a", ⟨["b c"], [], true⟩) := rfl
example :
    MR_trace_get_command ⟨[], [some "ab\\", some "cd"], false⟩ =
      ("ab cd", ⟨[], [], true⟩) := rfl

/-- Modelled from the spec: the event ports (CALL, EXIT, REDO, FAIL,
EXCEPTION, and several internal ports used only for internal diagnosis); the
enumeration itself lives in a runtime header outside the snapshot. -/
inductive MR_Trace_Port where
  | MR_PORT_CALL
  | MR_PORT_EXIT
  | MR_PORT_REDO
  | MR_PORT_FAIL
  | MR_PORT_EXCEPTION
  | MR_PORT_COND
  | MR_PORT_THEN
  | MR_PORT_ELSE
  | MR_PORT_NEG_ENTER
  | MR_PORT_NEG_SUCCESS
  | MR_PORT_NEG_FAILURE
  | MR_PORT_DISJ
  | MR_PORT_SWITCH
deriving DecidableEq, Repr

/-- Modelled from the spec: `MR_port_is_entry` holds at the port that enters
a call (used by the retry no-op check). -/
def MR_port_is_entry (p : MR_Trace_Port) : Bool :=
  p == .MR_PORT_CALL

/-- Modelled from the spec: `MR_port_is_final` holds at the ports that end a
call (EXIT, FAIL, EXCEPTION). -/
def MR_port_is_final (p : MR_Trace_Port) : Bool :=
  p == .MR_PORT_EXIT || p == .MR_PORT_FAIL || p == .MR_PORT_EXCEPTION

/-- Modelled from the spec: a procedure determinism, reduced to the two
attributes the engine consults — whether the determinism uses the
deterministic stack (`MR_DETISM_DET_STACK`, such determinisms cannot fail)
and its display name (`MR_detism_names`); the macros live in a runtime
header outside the snapshot. -/
structure MR_Determinism where
  MR_detism_det_stack : Bool
  MR_detism_name : String
deriving DecidableEq, Repr

/-- `MR_DETISM_DET_STACK` as a predicate on the modelled determinism. -/
def MR_DETISM_DET_STACK (d : MR_Determinism) : Bool :=
  d.MR_detism_det_stack

/-- `MR_detism_names` lookup on the modelled determinism. -/
def MR_detism_names (d : MR_Determinism) : String :=
  d.MR_detism_name

/-- The stop-condition kinds of a movement decision (`MR_Trace_Cmd_Type`). -/
inductive MR_Trace_Cmd_Kind where
  | MR_CMD_GOTO
  | MR_CMD_NEXT
  | MR_CMD_FINISH
  | MR_CMD_FAIL
  | MR_CMD_RESUME_FORWARD
  | MR_CMD_EXCP
  | MR_CMD_RETURN
  | MR_CMD_MIN_DEPTH
  | MR_CMD_MAX_DEPTH
  | MR_CMD_TO_END
deriving DecidableEq, Repr

/-- Print levels (`MR_Trace_Print_Level`). -/
inductive MR_Trace_Print_Level where
  | MR_PRINT_LEVEL_NONE
  | MR_PRINT_LEVEL_SOME
  | MR_PRINT_LEVEL_ALL
deriving DecidableEq, Repr

/-- The movement decision record (`MR_Trace_Cmd_Info`) as the handlers fill
it in. -/
structure MR_Trace_Cmd_Info where
  MR_trace_cmd : MR_Trace_Cmd_Kind
  MR_trace_strict : Bool
  MR_trace_print_level : MR_Trace_Print_Level
  MR_trace_stop_event : Nat
  MR_trace_stop_depth : Int
  MR_trace_check_integrity : Bool
deriving DecidableEq, Repr

/-- The fields of the event snapshot (`MR_Event_Info`) the embedded handlers
consult.  The determinism is reached in C through the layout chain
`MR_event_sll->MR_sll_entry->MR_sle_detism`, flattened here. -/
structure MR_Event_Info where
  MR_event_number : Nat
  MR_call_seqno : Nat
  MR_call_depth : Nat
  MR_trace_port : MR_Trace_Port
  MR_sle_detism : MR_Determinism
deriving DecidableEq, Repr

/-- Modelled from the spec: the option-word scanner shared by the
`MR_trace_options_*` parsers that take no option arguments, standing in for
the repository getopt (which is outside the snapshot).  A word of the form
`-xyz` yields the option characters `x`,`y`,`z`, each folded into the
accumulator; a word of the form `--name` yields the character the long-option
table associates with it; scanning stops at `--`, at a lone `-` or at the
first non-option word; `apply` rejects characters not in the command's option
string (getopt's `?` return, a usage error), and an unrecognized long option
likewise fails.  Returns the updated accumulator and the remaining words, or
`none` in place of the usage-error exit. -/
def MR_parse_noarg_options (longspecs : List (String × Char))
    (apply : α → Char → Option α) (a : α) : List String → α × Option (List String)
  | [] => (a, some [])
  | w :: rest =>
    match w.data with
    | '-' :: [] => (a, some (w :: rest))
    | '-' :: '-' :: [] => (a, some rest)
    | '-' :: '-' :: _ =>
      match List.find? (fun p => p.1 == w) longspecs with
      | none => (a, none)
      | some p =>
        match apply a p.2 with
        | none => (a, none)
        | some a2 => MR_parse_noarg_options longspecs apply a2 rest
    | '-' :: cs =>
      match cs.foldlM apply a with
      | none => (a, none)
      | some a2 => MR_parse_noarg_options longspecs apply a2 rest
    | _ => (a, some (w :: rest))

/-- The long options of `MR_trace_movement_cmd_opts` (non-integrity build,
matching the default `MR_TRACE_MOVEMENT_OPTS = "NSans"`). -/
def MR_trace_movement_cmd_opts : List (String × Char) :=
  [("--all", 'a'), ("--none", 'n'), ("--some", 's'), ("--nostrict", 'N'), ("--strict", 'S')]

/-- The `switch` body of `MR_trace_options_movement_cmd` for one option
character. -/
def MR_movement_opt_apply (cmd : MR_Trace_Cmd_Info) (c : Char) : Option MR_Trace_Cmd_Info :=
  if c == 'N' then some { cmd with MR_trace_strict := false }
  else if c == 'S' then some { cmd with MR_trace_strict := true }
  else if c == 'a' then some { cmd with MR_trace_print_level := .MR_PRINT_LEVEL_ALL }
  else if c == 'n' then some { cmd with MR_trace_print_level := .MR_PRINT_LEVEL_NONE }
  else if c == 's' then some { cmd with MR_trace_print_level := .MR_PRINT_LEVEL_SOME }
  else none

/-- `MR_trace_options_movement_cmd`: the shared option parser of the
movement-class commands.  On success the remaining words are the command's
arguments (the C code keeps them at `words[1..]` with `word_count` one more
than their number). -/
def MR_trace_options_movement_cmd (cmd : MR_Trace_Cmd_Info) (args : List String) :
    MR_Trace_Cmd_Info × Option (List String) :=
  MR_parse_noarg_options MR_trace_movement_cmd_opts MR_movement_opt_apply cmd args

example :
    MR_trace_options_movement_cmd
      ⟨.MR_CMD_GOTO, true, .MR_PRINT_LEVEL_SOME, 0, 0, false⟩ ["-a", "5"] =
    (⟨.MR_CMD_GOTO, true, .MR_PRINT_LEVEL_ALL, 0, 0, false⟩, some ["5"]) := rfl

/-- The message `MR_trace_do_noop` prints. -/
def MR_noop_msg : String :=
  "This command is a no-op from this port.\n"

/-- The message format of `MR_trace_usage_cur_cmd` for a given command name. -/
def MR_trace_usage (name : String) : String :=
  "mdb: " ++ name ++ ": usage error -- type `help " ++ name ++ "\x27 for help.\n"

/-- What a command handler produces: the control outcome, the movement
decision record as left behind, and the messages printed to `MR_mdb_err`. -/
structure MR_Handler_Output where
  next : MR_Next
  cmd : MR_Trace_Cmd_Info
  errs : List String
deriving DecidableEq, Repr

/-- The target stop depth of a well-formed `fail` command: the current depth
for a bare `fail`, the current depth minus `n` for `fail n` (the C branches
`word_count == 2 && MR_trace_is_natural_number` and `word_count == 1`);
`none` is the usage-error fall-through. -/
def MR_fail_target (args : List String) (depth : Nat) : Option Int :=
  match args with
  | [] => some depth
  | [w] =>
    match MR_trace_is_natural_number w with
    | some n => some ((depth : Int) - n)
    | none => none
  | _ => none

/-- `MR_trace_cmd_fail`: set strictness and the default print level, parse
movement options, read the optional ancestor count, then refuse when the
procedure's determinism uses the det stack, detect the FAIL-port no-op and
the EXCEPTION-port impossibility at the target depth, and otherwise finalize
a FAIL movement decision.  `words` are the argument words following the
command word. -/
def MR_trace_cmd_fail (words : List String) (event_info : MR_Event_Info)
    (cmd0 : MR_Trace_Cmd_Info) (default_print_level : MR_Trace_Print_Level) :
    MR_Handler_Output :=
  let detism := event_info.MR_sle_detism
  let depth : Int := event_info.MR_call_depth
  let cmd1 := { cmd0 with MR_trace_strict := true,
                          MR_trace_print_level := default_print_level,
                          MR_trace_check_integrity := false }
  match MR_trace_options_movement_cmd cmd1 words with
  | (cmd2, none) => ⟨.KEEP_INTERACTING, cmd2, [MR_trace_usage "fail"]⟩
  | (cmd2, some args) =>
    match MR_fail_target args event_info.MR_call_depth with
    | none => ⟨.KEEP_INTERACTING, cmd2, [MR_trace_usage "fail"]⟩
    | some stop_depth =>
      if MR_DETISM_DET_STACK detism then
        ⟨.KEEP_INTERACTING, cmd2,
          ["mdb: cannot continue until failure: selected procedure has determinism "
            ++ MR_detism_names detism ++ ".\n"]⟩
      else if depth == stop_depth && event_info.MR_trace_port == .MR_PORT_FAIL then
        ⟨.KEEP_INTERACTING, cmd2, [MR_noop_msg]⟩
      else if depth == stop_depth && event_info.MR_trace_port == .MR_PORT_EXCEPTION then
        ⟨.KEEP_INTERACTING, cmd2,
          ["mdb: cannot continue until failure: the call has raised an exception.\n"]⟩
      else
        ⟨.STOP_INTERACTING,
          { cmd2 with MR_trace_cmd := .MR_CMD_FAIL, MR_trace_stop_depth := stop_depth }, []⟩

/-- `MR_Retry_Across_Io` from the retry interface. -/
inductive MR_Retry_Across_Io where
  | MR_RETRY_IO_FORCE
  | MR_RETRY_IO_INTERACTIVE
  | MR_RETRY_IO_ONLY_IF_SAFE
deriving DecidableEq, Repr

/-- The classification the external `MR_trace_retry` operation returns. -/
inductive MR_Retry_Result where
  | MR_RETRY_OK_DIRECT
  | MR_RETRY_OK_FINISH_FIRST
  | MR_RETRY_OK_FAIL_FIRST
  | MR_RETRY_ERROR
deriving DecidableEq, Repr

/-- The state `MR_trace_options_retry` accumulates. -/
structure MR_Retry_Opts where
  across_io : MR_Retry_Across_Io
  assume_all_io_is_tabled : Bool
deriving DecidableEq, Repr

/-- The long options of `MR_trace_retry_opts`. -/
def MR_trace_retry_opts : List (String × Char) :=
  [("--assume-all-io-is-tabled", 'a'), ("--force", 'f'),
   ("--interactive", 'i'), ("--only-if-safe", 'o')]

/-- The `switch` body of `MR_trace_options_retry` for one option character. -/
def MR_retry_opt_apply (o : MR_Retry_Opts) (c : Char) : Option MR_Retry_Opts :=
  if c == 'a' then some { o with assume_all_io_is_tabled := true }
  else if c == 'f' then some { o with across_io := .MR_RETRY_IO_FORCE }
  else if c == 'i' then some { o with across_io := .MR_RETRY_IO_INTERACTIVE }
  else if c == 'o' then some { o with across_io := .MR_RETRY_IO_ONLY_IF_SAFE }
  else none

/-- `MR_trace_options_retry`. -/
def MR_trace_options_retry (o : MR_Retry_Opts) (args : List String) :
    MR_Retry_Opts × Option (List String) :=
  MR_parse_noarg_options MR_trace_retry_opts MR_retry_opt_apply o args

/-- `MR_trace_cmd_retry`: parse options and the optional ancestor level,
detect the entry-port no-op at level 0, then delegate to the external retry
operation — whose classification is passed in as `retry_result` (with
`problem` the error text for the error case) — and translate the
classification into a movement decision, enqueuing a `"retry -o"` follow-up
line at the head of the session queue for the finish-first and fail-first
cases. -/
def MR_trace_cmd_retry (retry_result : MR_Retry_Result) (problem : String)
    (words : List String) (event_info : MR_Event_Info) (cmd0 : MR_Trace_Cmd_Info)
    (trace_event_number : Nat) (default_print_level : MR_Trace_Print_Level)
    (st : MR_IO_State) : MR_Handler_Output × MR_IO_State :=
  match MR_trace_options_retry ⟨.MR_RETRY_IO_INTERACTIVE, false⟩ words with
  | (_, none) => (⟨.KEEP_INTERACTING, cmd0, [MR_trace_usage "retry"]⟩, st)
  | (_, some args) =>
    let level? : Option Nat :=
      match args with
      | [] => some 0
      | [w] => MR_trace_is_natural_number w
      | _ => none
    match level? with
    | none => (⟨.KEEP_INTERACTING, cmd0, [MR_trace_usage "retry"]⟩, st)
    | some ancestor_level =>
      if ancestor_level == 0 && MR_port_is_entry event_info.MR_trace_port then
        (⟨.KEEP_INTERACTING, cmd0, [MR_noop_msg]⟩, st)
      else
        match retry_result with
        | .MR_RETRY_OK_DIRECT =>
          (⟨.STOP_INTERACTING,
            { cmd0 with MR_trace_cmd := .MR_CMD_GOTO,
                        MR_trace_stop_event := trace_event_number + 1,
                        MR_trace_strict := false,
                        MR_trace_print_level := default_print_level }, []⟩, st)
        | .MR_RETRY_OK_FINISH_FIRST =>
          (⟨.STOP_INTERACTING,
            { cmd0 with MR_trace_cmd := .MR_CMD_FINISH,
                        MR_trace_stop_depth :=
                          (event_info.MR_call_depth : Int) - ancestor_level,
                        MR_trace_strict := true,
                        MR_trace_print_level := .MR_PRINT_LEVEL_NONE }, []⟩,
            MR_insert_line_at_head "retry -o" st)
        | .MR_RETRY_OK_FAIL_FIRST =>
          (⟨.STOP_INTERACTING,
            { cmd0 with MR_trace_cmd := .MR_CMD_FAIL,
                        MR_trace_stop_depth :=
                          (event_info.MR_call_depth : Int) - ancestor_level,
                        MR_trace_strict := true,
                        MR_trace_print_level := .MR_PRINT_LEVEL_NONE }, []⟩,
            MR_insert_line_at_head "retry -o" st)
        | .MR_RETRY_ERROR =>
          (⟨.KEEP_INTERACTING, cmd0, [problem ++ "\n"]⟩, st)

/-- `MR_Spy_Ignore_When` from the spy-point interface. -/
inductive MR_Spy_Ignore_When where
  | MR_SPY_DONT_IGNORE
  | MR_SPY_IGNORE_ENTRY
  | MR_SPY_IGNORE_INTERFACE
deriving DecidableEq, Repr

/-- The spy-point attributes the `ignore` command touches. -/
structure MR_Spy_Point where
  spy_exists : Bool
  spy_ignore_when : MR_Spy_Ignore_When
  spy_ignore_count : Nat
deriving DecidableEq, Repr

/-- `MR_trace_options_ignore_count`: parse leading `-E N` / `-I N` (argument
attached or in the following word) and `--ignore-entry N` /
`--ignore-interface N` options, each requiring a natural-number count. -/
def MR_trace_options_ignore_count (acc : MR_Spy_Ignore_When × Nat) :
    List String → (MR_Spy_Ignore_When × Nat) × Option (List String)
  | [] => (acc, some [])
  | w :: rest =>
    match w.data with
    | '-' :: [] => (acc, some (w :: rest))
    | '-' :: '-' :: [] => (acc, some rest)
    | '-' :: '-' :: _ =>
      let when? : Option MR_Spy_Ignore_When :=
        if w == "--ignore-entry" then some .MR_SPY_IGNORE_ENTRY
        else if w == "--ignore-interface" then some .MR_SPY_IGNORE_INTERFACE
        else none
      match when?, rest with
      | some wh, a :: rest2 =>
        match MR_trace_is_natural_number a with
        | some n => MR_trace_options_ignore_count (wh, n) rest2
        | none => (acc, none)
      | _, _ => (acc, none)
    | '-' :: c :: cs =>
      let when? : Option MR_Spy_Ignore_When :=
        if c == 'E' then some .MR_SPY_IGNORE_ENTRY
        else if c == 'I' then some .MR_SPY_IGNORE_INTERFACE
        else none
      match when? with
      | none => (acc, none)
      | some wh =>
        match cs with
        | [] =>
          match rest with
          | a :: rest2 =>
            match MR_trace_is_natural_number a with
            | some n => MR_trace_options_ignore_count (wh, n) rest2
            | none => (acc, none)
          | [] => (acc, none)
        | _ =>
          match MR_trace_is_natural_number (String.mk cs) with
          | some n => MR_trace_options_ignore_count (wh, n) rest
          | none => (acc, none)
    | _ => (acc, some (w :: rest))

/-- A default spy-point row for out-of-range indexing. -/
def MR_spy_point_default : MR_Spy_Point :=
  ⟨false, .MR_SPY_DONT_IGNORE, 0⟩

/-- `MR_trace_cmd_ignore`, observed through the sequence of
`(index, when, count)` argument triples it passes to the external
`MR_ignore_spy_point` mutator (spy-point storage lives outside the
snapshot).  `spy_points` is the registry (`MR_spy_points` up to
`MR_spy_point_next`), `most_recent` is `MR_most_recent_spy_point`, and
`n_uninit` is the value the handler's local variable `n` happens to hold
where the C code reads it without having assigned it. -/
def MR_trace_cmd_ignore (words : List String) (spy_points : List MR_Spy_Point)
    (most_recent : Int) (n_uninit : Int) :
    MR_Next × List (Int × MR_Spy_Ignore_When × Nat) × List String :=
  match MR_trace_options_ignore_count (.MR_SPY_IGNORE_ENTRY, 1) words with
  | (_, none) => (.KEEP_INTERACTING, [], [MR_trace_usage "ignore"])
  | ((ignore_when, ignore_count), some args) =>
    match args with
    | [w] =>
      match MR_trace_is_natural_number w with
      | some n =>
        if n < spy_points.length && (spy_points.getD n MR_spy_point_default).spy_exists then
          (.KEEP_INTERACTING, [((n : Int), ignore_when, ignore_count)], [])
        else
          (.KEEP_INTERACTING, [],
            ["mdb: break point #" ++ toString n ++ " does not exist.\n"])
      | none =>
        if w == "*" then
          let calls := (List.range spy_points.length).filterMap (fun i =>
            if (spy_points.getD i MR_spy_point_default).spy_exists then
              some (n_uninit, ignore_when, ignore_count)
            else none)
          if calls.length == 0 then
            (.KEEP_INTERACTING, calls, ["There are no break points.\n"])
          else
            (.KEEP_INTERACTING, calls, [])
        else
          (.KEEP_INTERACTING, [], [MR_trace_usage "ignore"])
    | [] =>
      if 0 ≤ most_recent && most_recent < spy_points.length &&
          (spy_points.getD most_recent.toNat MR_spy_point_default).spy_exists then
        (.KEEP_INTERACTING, [(most_recent, ignore_when, ignore_count)], [])
      else
        (.KEEP_INTERACTING, [], ["mdb: there is no most recent break point.\n"])
    | _ => (.KEEP_INTERACTING, [], [MR_trace_usage "ignore"])

/-- The `switch` body of `MR_trace_options_confirmed` (`MR_getopt` with
option string "NYny", no long options). -/
def MR_confirmed_opt_apply (_confirmed : Bool) (c : Char) : Option Bool :=
  if c == 'n' || c == 'N' then some false
  else if c == 'y' || c == 'Y' then some true
  else none

/-- `MR_trace_options_confirmed`. -/
def MR_trace_options_confirmed (confirmed : Bool) (args : List String) :
    Bool × Option (List String) :=
  MR_parse_noarg_options [] MR_confirmed_opt_apply confirmed args

/-- Whether `MR_trace_cmd_quit` exits the process or keeps interacting. -/
inductive MR_Quit_Outcome where
  | exited
  | kept
deriving DecidableEq, Repr

/-- `MR_trace_cmd_quit`: parse the confirmation options; when not yet
confirmed, read a confirmation line — end-of-input confirms, as does a first
non-whitespace character `y`/`Y` — and exit when confirmed, otherwise keep
interacting. -/
def MR_trace_cmd_quit (words : List String) (st : MR_IO_State) :
    MR_Quit_Outcome × MR_IO_State × List String :=
  match MR_trace_options_confirmed false words with
  | (_, none) => (.kept, st, [MR_trace_usage "quit"])
  | (confirmed, some args) =>
    match args with
    | [] =>
      if confirmed then (.exited, st, [])
      else
        match MR_trace_getline st with
        | (none, st2) => (.exited, st2, [])
        | (some line2, st2) =>
          let c := (line2.data.dropWhile MR_isspace).headD '\x00'
          if c == 'y' || c == 'Y' then (.exited, st2, [])
          else (.kept, st2, [])
    | _ => (.kept, st, [MR_trace_usage "quit"])

example : MR_trace_cmd_quit ["-y"] ⟨[], [], false⟩ = (.exited, ⟨[], [], false⟩, []) := rfl
example : MR_trace_cmd_quit [] ⟨[], [some " no"], false⟩ = (.kept, ⟨[], [], true⟩, []) := rfl

/-- The result of the `--more--` prompt loop in
`MR_trace_event_internal_report`: either the report proceeds (possibly with a
print-level override applied to the decision record) or the user quit the
report with `q` (the C code then re-invokes `MR_trace_event_internal`). -/
inductive MR_Pager_Prompt_Outcome where
  | proceed (cmd : MR_Trace_Cmd_Info) (st : MR_IO_State) (errs : List String)
  | quit_report (cmd : MR_Trace_Cmd_Info) (st : MR_IO_State) (errs : List String)
deriving DecidableEq, Repr

/-- The `try_again` loop of `MR_trace_event_internal_report`: read a reply to
the `--more--` prompt; end-of-input or an all-blank reply proceeds
unchanged; a first non-blank `a`/`n`/`s` overrides the print level; `q`
quits the report; anything else prints "unknown command, try again" and
re-prompts.  `fuel` makes the recursion structural; the wrapper passes
`MR_ioMeasure st`, which suffices because every iteration consumes one input
item. -/
def MR_pager_prompt_go (fuel : Nat) (cmd : MR_Trace_Cmd_Info) (st : MR_IO_State)
    (errs : List String) : MR_Pager_Prompt_Outcome :=
  match MR_trace_getline st with
  | (none, st2) => .proceed cmd st2 errs
  | (some buf, st2) =>
    match (buf.data.dropWhile MR_isspace).head? with
    | none => .proceed cmd st2 errs
    | some c =>
      if c == 'a' then
        .proceed { cmd with MR_trace_print_level := .MR_PRINT_LEVEL_ALL } st2 errs
      else if c == 'n' then
        .proceed { cmd with MR_trace_print_level := .MR_PRINT_LEVEL_NONE } st2 errs
      else if c == 's' then
        .proceed { cmd with MR_trace_print_level := .MR_PRINT_LEVEL_SOME } st2 errs
      else if c == 'q' then
        .quit_report cmd st2 errs
      else
        match fuel with
        | 0 => .proceed cmd st2 (errs ++ ["unknown command, try again\n"])
        | fuel + 1 =>
          MR_pager_prompt_go fuel cmd st2 (errs ++ ["unknown command, try again\n"])

/-- The observable result of one `MR_trace_event_internal_report` call. -/
structure MR_Pager_Result where
  prompted : Bool
  quit_report : Bool
  cmd : MR_Trace_Cmd_Info
  MR_scroll_next : Nat
  errs : List String
  io : MR_IO_State
deriving DecidableEq, Repr

/-- `MR_trace_event_internal_report`: when scrolling is enabled and the lines
shown since the last pause plus the print-list items to come reach the page
size less the line reserved for the prompt, issue the `--more--` prompt and
interpret the reply; then (unless the report was quit) reset the counter,
print the event line and the print list, counting them.  The external
`MR_trace_var_print_list` is modelled as displaying one line per print-list
item. -/
def MR_trace_event_internal_report (scroll_control : Bool)
    (scroll_limit scroll_next : Nat) (print_list : List String)
    (cmd : MR_Trace_Cmd_Info) (st : MR_IO_State) : MR_Pager_Result :=
  let len := print_list.length
  if scroll_control && decide (scroll_limit - 1 ≤ scroll_next + len) then
    match MR_pager_prompt_go (MR_ioMeasure st) cmd st [] with
    | .quit_report cmd2 st2 errs =>
      ⟨true, true, cmd2, scroll_next, errs, st2⟩
    | .proceed cmd2 st2 errs =>
      ⟨true, false, cmd2, 0 + 1 + (if print_list.isEmpty then 0 else len), errs, st2⟩
  else
    ⟨false, false, cmd, scroll_next + 1 + (if print_list.isEmpty then 0 else len), [], st⟩

/-!  Helper lemmas shared by the claim theorems. -/

theorem MR_range_filterMap_const {α : Type} (l : List MR_Spy_Point)
    (p : MR_Spy_Point → Bool) (v : α) :
    (List.range l.length).filterMap
        (fun i => if p (l.getD i MR_spy_point_default) then some v else none) =
      List.replicate (l.countP p) v := by
  induction l with
  | nil => simp
  | cons a t ih =>
    rw [List.length_cons, List.range_succ_eq_map, List.filterMap_cons, List.filterMap_map]
    by_cases hpa : p a
    · simp only [List.getD_cons_zero, hpa, if_true, Function.comp_def, List.getD_cons_succ]
      rw [ih, List.countP_cons]
      simp [hpa, List.replicate_succ]
    · simp only [List.getD_cons_zero, hpa, if_false, Function.comp_def, List.getD_cons_succ]
      rw [ih, List.countP_cons]
      simp [hpa]

theorem MR_natural_number_head_digit (w : String) (n : Nat)
    (h : MR_trace_is_natural_number w = some n) :
    ∃ c cs, w.data = c :: cs ∧ MR_isdigit c = true := by
  unfold MR_trace_is_natural_number at h
  split at h
  · rename_i hcond
    simp only [Bool.and_eq_true, Bool.not_eq_true'] at hcond
    obtain ⟨hne, hall⟩ := hcond
    cases hd : w.data with
    | nil => rw [hd] at hne; simp at hne
    | cons c cs =>
      refine ⟨c, cs, rfl, ?_⟩
      rw [hd] at hall
      simp only [List.all_cons, Bool.and_eq_true] at hall
      exact hall.1
  · exact absurd h (by simp)

theorem MR_parse_noarg_options_start_nonopt {α : Type} (longspecs : List (String × Char))
    (ap : α → Char → Option α) (a : α) (w : String) (ws : List String)
    (hw : w.data.headD ' ' ≠ '-') :
    MR_parse_noarg_options longspecs ap a (w :: ws) = (a, some (w :: ws)) := by
  unfold MR_parse_noarg_options
  split
  · rfl
  · rename_i heq
    rw [heq] at hw
    simp at hw
  · rename_i heq
    rw [heq] at hw
    simp at hw
  · rename_i c cs heq
    rw [heq] at hw
    simp at hw
  · rfl

theorem MR_natural_number_nonopt (w : String) (n : Nat)
    (h : MR_trace_is_natural_number w = some n) : w.data.headD ' ' ≠ '-' := by
  obtain ⟨c, cs, hd, hdig⟩ := MR_natural_number_head_digit w n h
  rw [hd]
  simp only [List.headD_cons]
  intro hc
  rw [hc] at hdig
  simp [MR_isdigit] at hdig

/-!  Claim theorems. -/

/-- Claim C1.  The claim says lookup of the reserved pseudo-entries "NUMBER"
and "EMPTY" must never lead to invoking their NULL handler and that every
unmatched first word yields the recoverable unknown-command report.  The
second half holds (fourth conjunct), but the first is violated by the code:
`MR_trace_valid_command` does not skip the pseudo-entries, so
`MR_trace_handle_cmd` on first word "NUMBER" or "EMPTY" finds their rows and
calls their NULL function pointer (first three conjuncts) — undefined
behaviour rather than the specified report. -/
theorem c1_pseudo_entries_dispatch_null_handler :
    MR_trace_handle_cmd ["NUMBER"] = .null_handler "NUMBER" ∧
    MR_trace_handle_cmd ["EMPTY"] = .null_handler "EMPTY" ∧
    (MR_trace_valid_command "NUMBER").map
        MR_Trace_Command_Info.MR_cmd_function = some none ∧
    ∀ w ws, MR_trace_valid_command w = none →
      MR_trace_handle_cmd (w :: ws) =
        .unknown w
          ("Unknown command `" ++ w ++ "\x27. Give the command `help\x27 for help.\n") := by
  refine ⟨rfl, rfl, rfl, ?_⟩
  intro w ws h
  simp [MR_trace_handle_cmd, h]

/-- Witness for C1: "frobnicate" is in no table row, and dispatching it
reports the unknown-command message. -/
theorem c1_pseudo_entries_dispatch_null_handler_witness :
    MR_trace_valid_command "frobnicate" = none ∧
    MR_trace_handle_cmd ["frobnicate"] =
      .unknown "frobnicate"
        ("Unknown command `" ++ "frobnicate" ++ "\x27. Give the command `help\x27 for help.\n") :=
  ⟨rfl, c1_pseudo_entries_dispatch_null_handler.2.2.2 "frobnicate" [] rfl⟩

/-- Claim C2.  In the `ignore *` branch the loop over the spy points passes
the handler's variable `n` — unassigned on this path, represented by the
arbitrary `n_uninit` — to `MR_ignore_spy_point` on every iteration, never
the loop index `i`: with `k` existing spy points the call sequence is `k`
copies of the same `(n_uninit, when, count)` triple. -/
theorem c2_ignore_star_passes_stale_index (spy_points : List MR_Spy_Point)
    (most_recent n_uninit : Int) :
    MR_trace_cmd_ignore ["*"] spy_points most_recent n_uninit =
      (.KEEP_INTERACTING,
        List.replicate (spy_points.countP (fun p => p.spy_exists))
          (n_uninit, .MR_SPY_IGNORE_ENTRY, 1),
        if spy_points.countP (fun p => p.spy_exists) = 0 then
          ["There are no break points.\n"]
        else []) := by
  unfold MR_trace_cmd_ignore
  have hopts : MR_trace_options_ignore_count (.MR_SPY_IGNORE_ENTRY, 1) ["*"] =
      ((.MR_SPY_IGNORE_ENTRY, 1), some ["*"]) := rfl
  rw [hopts]
  have hnat : MR_trace_is_natural_number "*" = none := rfl
  simp only [hnat]
  have hstar : ("*" == "*") = true := rfl
  simp only [hstar, if_true]
  rw [MR_range_filterMap_const spy_points (fun p => p.spy_exists)
    (n_uninit, MR_Spy_Ignore_When.MR_SPY_IGNORE_ENTRY, 1)]
  rw [List.length_replicate]
  by_cases hk : spy_points.countP (fun p => p.spy_exists) = 0
  · simp [hk]
  · simp [hk]

/-- Claim C3.  Whenever reading the command source yields end-of-input at the
start of a line, `MR_trace_get_command` returns the string "quit" (with only
the read consumed), so the command loop processes it exactly like a typed
`quit` command. -/
theorem c3_eof_reads_as_quit (st : MR_IO_State)
    (h : (MR_trace_getline st).1 = none) :
    MR_trace_get_command st = ("quit", (MR_trace_getline st).2) := by
  unfold MR_trace_get_command
  rcases hg : MR_trace_getline st with ⟨o, st2⟩
  rw [hg] at h
  simp only at h
  subst h
  simp [hg]

/-- Witness for C3: with an empty session queue and a terminal that reports
end-of-input, the command read returns "quit". -/
theorem c3_eof_reads_as_quit_witness :
    (MR_trace_getline ⟨[], [none], false⟩).1 = none ∧
    MR_trace_get_command ⟨[], [none], false⟩ =
      ("quit", (MR_trace_getline ⟨[], [none], false⟩).2) :=
  ⟨rfl, c3_eof_reads_as_quit ⟨[], [none], false⟩ rfl⟩

/-- A character that does not interact with the tokenizer: not whitespace,
not a quote, not the escape character. -/
def MR_plain_char (c : Char) : Bool :=
  !MR_isspace c && c != SINGLE_QUOTE_CHAR && c != DOUBLE_QUOTE_CHAR && c != ESCAPE_CHAR

theorem MR_break_off_one_word_plain_prepend (w : List Char)
    (hw : w.all MR_plain_char = true) (tail : List Char) (e : String)
    (h : MR_trace_break_off_one_word tail false false = .error e) :
    MR_trace_break_off_one_word (w ++ tail) false false = .error e := by
  induction w with
  | nil => simpa using h
  | cons c cs ih =>
    simp only [List.all_cons, Bool.and_eq_true] at hw
    obtain ⟨hc, hcs⟩ := hw
    simp only [MR_plain_char, Bool.and_eq_true, Bool.not_eq_true', bne_iff_ne] at hc
    obtain ⟨⟨⟨hsp, hsq⟩, hdq⟩, hesc⟩ := hc
    have hrec := ih hcs
    rw [List.cons_append, MR_trace_break_off_one_word.eq_def]
    simp [hsp, hsq, hdq, hesc, hrec, MR_cons_word]

theorem MR_plain_append_dropWhile (w : List Char) (hw : w.all MR_plain_char = true)
    (q : Char) (hq : MR_isspace q = false) :
    (w ++ [q]).dropWhile MR_isspace = w ++ [q] := by
  cases w with
  | nil => simp [List.dropWhile, hq]
  | cons c cs =>
    have hc : MR_plain_char c = true := by
      simp only [List.all_cons, Bool.and_eq_true] at hw
      exact hw.1
    have hsp : MR_isspace c = false := by
      simp only [MR_plain_char, Bool.and_eq_true, Bool.not_eq_true'] at hc
      exact hc.1.1.1
    simp [List.dropWhile_cons, hsp]

theorem MR_break_into_words_go_error (fuel : Nat) (line : List Char) (e : String)
    (hdrop : line.dropWhile MR_isspace = line) (hne : line ≠ [])
    (hbow : MR_trace_break_off_one_word line false false = .error e) :
    MR_trace_break_into_words_go fuel line = .error e := by
  unfold MR_trace_break_into_words_go
  split
  · rename_i hnil
    rw [hdrop] at hnil
    exact absurd hnil hne
  · rename_i c cs hcons
    rw [hdrop] at hcons
    rw [hcons] at hbow
    simp [hbow]

/-- Claim C8.  For any word of plain characters, ending it in an unmatched
single quote makes the tokenizer fail with "unmatched single quote"
(symmetrically "unmatched double quote"), and ending the input in a
backslash makes it fail with "bad backslash"; in each case the `Except.error`
result carries no word sequence.  The last two conjuncts evaluate the
tokenizer on the spec's concrete examples. -/
theorem c8_tokenizer_error_results :
    (∀ w : List Char, w.all MR_plain_char = true →
      MR_trace_break_into_words (w ++ [SINGLE_QUOTE_CHAR]) =
        .error "unmatched single quote" ∧
      MR_trace_break_into_words (w ++ [DOUBLE_QUOTE_CHAR]) =
        .error "unmatched double quote" ∧
      MR_trace_break_into_words (w ++ [ESCAPE_CHAR]) = .error "bad backslash") ∧
    MR_trace_break_into_words ("abc".data ++ [SINGLE_QUOTE_CHAR]) =
      .error "unmatched single quote" ∧
    MR_trace_break_into_words ("ab".data ++ [ESCAPE_CHAR]) = .error "bad backslash" := by
  refine ⟨?_, rfl, rfl⟩
  intro w hw
  refine ⟨?_, ?_, ?_⟩
  · exact MR_break_into_words_go_error _ _ _
      (MR_plain_append_dropWhile w hw SINGLE_QUOTE_CHAR rfl) (by simp)
      (MR_break_off_one_word_plain_prepend w hw [SINGLE_QUOTE_CHAR] _ rfl)
  · exact MR_break_into_words_go_error _ _ _
      (MR_plain_append_dropWhile w hw DOUBLE_QUOTE_CHAR rfl) (by simp)
      (MR_break_off_one_word_plain_prepend w hw [DOUBLE_QUOTE_CHAR] _ rfl)
  · exact MR_break_into_words_go_error _ _ _
      (MR_plain_append_dropWhile w hw ESCAPE_CHAR rfl) (by simp)
      (MR_break_off_one_word_plain_prepend w hw [ESCAPE_CHAR] _ rfl)

/-- Witness for C8: the word "abc" is plain, and appending each offender
produces the corresponding tokenizer error. -/
theorem c8_tokenizer_error_results_witness :
    ("abc".data.all MR_plain_char = true) ∧
    MR_trace_break_into_words ("abc".data ++ [SINGLE_QUOTE_CHAR]) =
      .error "unmatched single quote" ∧
    MR_trace_break_into_words ("abc".data ++ [DOUBLE_QUOTE_CHAR]) =
      .error "unmatched double quote" ∧
    MR_trace_break_into_words ("abc".data ++ [ESCAPE_CHAR]) = .error "bad backslash" :=
  ⟨rfl,
    (c8_tokenizer_error_results.1 "abc".data rfl).1,
    (c8_tokenizer_error_results.1 "abc".data rfl).2.1,
    (c8_tokenizer_error_results.1 "abc".data rfl).2.2⟩

theorem MR_range_map_splice (body words tail : List String) (copyStart : Nat)
    (hg : ∀ j, j < tail.length → words.getD (j + copyStart) "" = tail.getD j "") :
    (List.range (body.length + tail.length)).map
      (fun i => if i < body.length then body.getD i ""
                else words.getD (i - body.length + copyStart) "") = body ++ tail := by
  apply List.ext_getElem
  · simp
  · intro i h1 h2
    simp only [List.getElem_map, List.getElem_range]
    by_cases hib : i < body.length
    · rw [if_pos hib, List.getElem_append_left hib, List.getD_eq_getElem body "" hib]
    · have hlen : i < body.length + tail.length := by
        simpa using h1
      have hti : i - body.length < tail.length := by omega
      rw [if_neg hib]
      have harg : i - body.length + copyStart = (i - body.length) + copyStart := rfl
      rw [harg, hg (i - body.length) hti,
        List.getD_eq_getElem tail "" hti,
        List.getElem_append_right (by omega)]

/-- Claim C9.  The alias lookup key is "EMPTY" for an empty word sequence,
"NUMBER" when word one is a natural number, and word one itself otherwise;
a registered alias body is spliced in place of the consumed prefix (word one
for a named alias, nothing for EMPTY/NUMBER), preserving the remaining
words.  With alias "s" -> ["step"], the line "s" and the line "step" expand
to word sequences that the dispatch table sends to the same handler,
`MR_trace_cmd_step`. -/
theorem c9_alias_expansion :
    (∀ als body, MR_trace_lookup_alias als "EMPTY" = some body →
        MR_trace_expand_aliases als [] = body) ∧
    (∀ als body w ws n, MR_trace_is_natural_number w = some n →
        MR_trace_lookup_alias als "NUMBER" = some body →
        MR_trace_expand_aliases als (w :: ws) = body ++ w :: ws) ∧
    (∀ als body w ws, MR_trace_is_natural_number w = none →
        MR_trace_lookup_alias als w = some body →
        MR_trace_expand_aliases als (w :: ws) = body ++ ws) ∧
    MR_trace_expand_aliases [("s", ["step"])] ["s"] = ["step"] ∧
    MR_trace_handle_cmd (MR_trace_expand_aliases [("s", ["step"])] ["s"]) =
      MR_trace_handle_cmd (MR_trace_expand_aliases [("s", ["step"])] ["step"]) ∧
    MR_trace_handle_cmd (MR_trace_expand_aliases [("s", ["step"])] ["s"]) =
      .call "MR_trace_cmd_step" := by
  refine ⟨?_, ?_, ?_, rfl, rfl, rfl⟩
  · intro als body hlook
    unfold MR_trace_expand_aliases
    simp only [List.length_nil, beq_self_eq_true, if_true, hlook]
    have hc : 0 + body.length - 0 = body.length + ([] : List String).length := by simp
    rw [hc, MR_range_map_splice body [] [] 0 (by intro j hj; simp at hj)]
    simp
  · intro als body w ws n hnat hlook
    unfold MR_trace_expand_aliases
    simp only [List.length_cons, List.headD_cons, hnat, Option.isSome_some, if_true]
    have hz : (ws.length + 1 == 0) = false := by simp
    simp only [hz, Bool.false_eq_true, if_false, hlook]
    have hc : ws.length + 1 + body.length - 0 = body.length + (w :: ws).length := by
      simp [Nat.add_comm]
    rw [hc, MR_range_map_splice body (w :: ws) (w :: ws) 0 ?_]
    intro j hj
    simp
  · intro als body w ws hnat hlook
    unfold MR_trace_expand_aliases
    simp only [List.length_cons, List.headD_cons, hnat, Option.isSome_none, if_false]
    have hz : (ws.length + 1 == 0) = false := by simp
    simp only [hz, Bool.false_eq_true, if_false, hlook]
    have hc : ws.length + 1 + body.length - 1 = body.length + ws.length := by omega
    rw [hc, MR_range_map_splice body (w :: ws) ws 1 ?_]
    intro j hj
    simp [List.getD_cons_succ]

/-- Witness for C9: concrete instances of the three splice rules. -/
theorem c9_alias_expansion_witness :
    MR_trace_expand_aliases [("EMPTY", ["step"])] [] = ["step"] ∧
    MR_trace_expand_aliases [("NUMBER", ["goto"])] ["7"] = ["goto", "7"] ∧
    MR_trace_expand_aliases [("s", ["step", "5"])] ["s", "x"] = ["step", "5", "x"] :=
  ⟨c9_alias_expansion.1 [("EMPTY", ["step"])] ["step"] rfl,
    c9_alias_expansion.2.1 [("NUMBER", ["goto"])] ["goto"] "7" [] 7 rfl rfl,
    c9_alias_expansion.2.2.1 [("s", ["step", "5"])] ["step", "5"] "s" ["x"] rfl rfl⟩

/-- Claim C10.  `quit` without the force flag reads a confirmation line:
end-of-input confirms and the process exits; a reply whose first
non-whitespace character is `y` or `Y` exits; any other reply cancels the
quit, returning KEEP_INTERACTING having consumed only the confirmation read
and printed nothing. -/
theorem c10_quit_confirmation (st : MR_IO_State) :
    ((MR_trace_getline st).1 = none →
        MR_trace_cmd_quit [] st = (.exited, (MR_trace_getline st).2, [])) ∧
    (∀ reply, (MR_trace_getline st).1 = some reply →
        ((reply.data.dropWhile MR_isspace).headD '\x00' = 'y' ∨
         (reply.data.dropWhile MR_isspace).headD '\x00' = 'Y') →
        MR_trace_cmd_quit [] st = (.exited, (MR_trace_getline st).2, [])) ∧
    (∀ reply c, (MR_trace_getline st).1 = some reply →
        (reply.data.dropWhile MR_isspace).headD '\x00' = c →
        c ≠ 'y' → c ≠ 'Y' →
        MR_trace_cmd_quit [] st = (.kept, (MR_trace_getline st).2, [])) := by
  refine ⟨?_, ?_, ?_⟩
  · intro h
    unfold MR_trace_cmd_quit
    rcases hg : MR_trace_getline st with ⟨o, st2⟩
    rw [hg] at h
    simp only at h
    subst h
    simp [MR_trace_options_confirmed, MR_parse_noarg_options, hg]
  · intro reply hg1 hc
    unfold MR_trace_cmd_quit
    rcases hg : MR_trace_getline st with ⟨o, st2⟩
    rw [hg] at hg1
    simp only at hg1
    subst hg1
    simp only [MR_trace_options_confirmed, MR_parse_noarg_options, hg]
    rw [List.headD_eq_head?] at hc
    rcases hc with hc | hc <;> simp [hc]
  · intro reply c hg1 hcc hny hnY
    unfold MR_trace_cmd_quit
    rcases hg : MR_trace_getline st with ⟨o, st2⟩
    rw [hg] at hg1
    simp only at hg1
    subst hg1
    simp only [MR_trace_options_confirmed, MR_parse_noarg_options, hg]
    rw [List.headD_eq_head?] at hcc
    simp [hcc, hny, hnY]

/-- Claim C4.  For a well-formed `fail` command with target depth `D` (the
current depth, or current depth minus the given count): a det-stack
determinism is refused with a message naming the determinism and
KEEP_INTERACTING; at depth `D` on the FAIL port the command is a reported
no-op; at depth `D` on the EXCEPTION port the impossibility is reported;
otherwise a FAIL movement decision with stop depth `D` is finalized with
STOP_INTERACTING. -/
theorem c4_fail_command (event_info : MR_Event_Info) (cmd0 : MR_Trace_Cmd_Info)
    (dpl : MR_Trace_Print_Level) (args : List String) (D : Int)
    (hargs : MR_fail_target args event_info.MR_call_depth = some D) :
    (MR_DETISM_DET_STACK event_info.MR_sle_detism = true →
      (MR_trace_cmd_fail args event_info cmd0 dpl).next = .KEEP_INTERACTING ∧
      (MR_trace_cmd_fail args event_info cmd0 dpl).errs =
        ["mdb: cannot continue until failure: selected procedure has determinism "
          ++ MR_detism_names event_info.MR_sle_detism ++ ".\n"]) ∧
    (MR_DETISM_DET_STACK event_info.MR_sle_detism = false →
      (event_info.MR_call_depth : Int) = D →
      event_info.MR_trace_port = .MR_PORT_FAIL →
      (MR_trace_cmd_fail args event_info cmd0 dpl).next = .KEEP_INTERACTING ∧
      (MR_trace_cmd_fail args event_info cmd0 dpl).errs = [MR_noop_msg]) ∧
    (MR_DETISM_DET_STACK event_info.MR_sle_detism = false →
      (event_info.MR_call_depth : Int) = D →
      event_info.MR_trace_port = .MR_PORT_EXCEPTION →
      (MR_trace_cmd_fail args event_info cmd0 dpl).next = .KEEP_INTERACTING ∧
      (MR_trace_cmd_fail args event_info cmd0 dpl).errs =
        ["mdb: cannot continue until failure: the call has raised an exception.\n"]) ∧
    (MR_DETISM_DET_STACK event_info.MR_sle_detism = false →
      ¬((event_info.MR_call_depth : Int) = D ∧
        (event_info.MR_trace_port = .MR_PORT_FAIL ∨
         event_info.MR_trace_port = .MR_PORT_EXCEPTION)) →
      (MR_trace_cmd_fail args event_info cmd0 dpl).next = .STOP_INTERACTING ∧
      (MR_trace_cmd_fail args event_info cmd0 dpl).cmd.MR_trace_cmd = .MR_CMD_FAIL ∧
      (MR_trace_cmd_fail args event_info cmd0 dpl).cmd.MR_trace_stop_depth = D) := by
  have heval : MR_trace_cmd_fail args event_info cmd0 dpl =
      (if MR_DETISM_DET_STACK event_info.MR_sle_detism then
        ⟨.KEEP_INTERACTING,
          { cmd0 with MR_trace_strict := true, MR_trace_print_level := dpl,
                      MR_trace_check_integrity := false },
          ["mdb: cannot continue until failure: selected procedure has determinism "
            ++ MR_detism_names event_info.MR_sle_detism ++ ".\n"]⟩
      else if ((event_info.MR_call_depth : Int) == D
          && event_info.MR_trace_port == .MR_PORT_FAIL) then
        ⟨.KEEP_INTERACTING,
          { cmd0 with MR_trace_strict := true, MR_trace_print_level := dpl,
                      MR_trace_check_integrity := false }, [MR_noop_msg]⟩
      else if ((event_info.MR_call_depth : Int) == D
          && event_info.MR_trace_port == .MR_PORT_EXCEPTION) then
        ⟨.KEEP_INTERACTING,
          { cmd0 with MR_trace_strict := true, MR_trace_print_level := dpl,
                      MR_trace_check_integrity := false },
          ["mdb: cannot continue until failure: the call has raised an exception.\n"]⟩
      else
        ⟨.STOP_INTERACTING,
          { cmd0 with MR_trace_strict := true, MR_trace_print_level := dpl,
                      MR_trace_check_integrity := false,
                      MR_trace_cmd := .MR_CMD_FAIL, MR_trace_stop_depth := D }, []⟩) := by
    rcases args with _ | ⟨w, _ | ⟨w2, ws⟩⟩
    · have hD : (event_info.MR_call_depth : Int) = D := by
        simpa [MR_fail_target] using hargs
      simp only [MR_trace_cmd_fail, MR_trace_options_movement_cmd,
        MR_parse_noarg_options, MR_fail_target, hD]
    · rcases hnat : MR_trace_is_natural_number w with _ | n
      · rw [MR_fail_target] at hargs
        rw [hnat] at hargs
        simp at hargs
      · have hD : (event_info.MR_call_depth : Int) - n = D := by
          rw [MR_fail_target, hnat] at hargs
          simpa using hargs
        have hw := MR_natural_number_nonopt w n hnat
        have hopts : ∀ a : MR_Trace_Cmd_Info,
            MR_trace_options_movement_cmd a [w] = (a, some [w]) := fun a =>
          MR_parse_noarg_options_start_nonopt MR_trace_movement_cmd_opts
            MR_movement_opt_apply a w [] hw
        simp only [MR_trace_cmd_fail, hopts, MR_fail_target, hnat, hD]
    · simp [MR_fail_target] at hargs
  refine ⟨?_, ?_, ?_, ?_⟩
  · intro hdet
    rw [heval]
    simp [hdet]
  · intro hdet hdD hport
    rw [heval]
    simp [hdet, hdD, hport]
  · intro hdet hdD hport
    rw [heval]
    simp [hdet, hdD, hport]
  · intro hdet hn
    rw [heval]
    by_cases hdD : (event_info.MR_call_depth : Int) = D
    · have hports : ¬event_info.MR_trace_port = .MR_PORT_FAIL ∧
          ¬event_info.MR_trace_port = .MR_PORT_EXCEPTION := by
        constructor <;> intro hp <;> exact hn ⟨hdD, by simp [hp]⟩
      simp [hdet, hdD, hports.1, hports.2]
    · simp [hdet, hdD]

/-- Witness for C4: `fail 1` at depth 3 on an EXIT-port event of a nondet
procedure finalizes a FAIL decision with stop depth 2. -/
theorem c4_fail_command_witness :
    MR_fail_target ["1"] 3 = some 2 ∧
    (MR_trace_cmd_fail ["1"] ⟨10, 4, 3, .MR_PORT_EXIT, ⟨false, "nondet"⟩⟩
        ⟨.MR_CMD_GOTO, false, .MR_PRINT_LEVEL_SOME, 0, 0, false⟩
        .MR_PRINT_LEVEL_SOME).next = .STOP_INTERACTING ∧
    (MR_trace_cmd_fail ["1"] ⟨10, 4, 3, .MR_PORT_EXIT, ⟨false, "nondet"⟩⟩
        ⟨.MR_CMD_GOTO, false, .MR_PRINT_LEVEL_SOME, 0, 0, false⟩
        .MR_PRINT_LEVEL_SOME).cmd.MR_trace_cmd = .MR_CMD_FAIL ∧
    (MR_trace_cmd_fail ["1"] ⟨10, 4, 3, .MR_PORT_EXIT, ⟨false, "nondet"⟩⟩
        ⟨.MR_CMD_GOTO, false, .MR_PRINT_LEVEL_SOME, 0, 0, false⟩
        .MR_PRINT_LEVEL_SOME).cmd.MR_trace_stop_depth = 2 := by
  refine ⟨rfl, ?_⟩
  have h := (c4_fail_command ⟨10, 4, 3, .MR_PORT_EXIT, ⟨false, "nondet"⟩⟩
    ⟨.MR_CMD_GOTO, false, .MR_PRINT_LEVEL_SOME, 0, 0, false⟩
    .MR_PRINT_LEVEL_SOME ["1"] 2 rfl).2.2.2 rfl (by simp)
  exact ⟨h.1, h.2.1, h.2.2⟩

/-- Claim C5.  When the external retry operation classifies a retry as
retry-after-finish, the handler pushes "retry -o" onto the front of the
session queue, finalizes a FINISH decision with stop depth equal to the
current depth minus the ancestor level, and returns STOP_INTERACTING. -/
theorem c5_retry_finish_first (problem : String) (words : List String)
    (event_info : MR_Event_Info) (cmd0 : MR_Trace_Cmd_Info) (ten : Nat)
    (dpl : MR_Trace_Print_Level) (st : MR_IO_State) (level : Nat)
    (hargs : words = [] ∧ level = 0 ∨
      ∃ w, words = [w] ∧ MR_trace_is_natural_number w = some level)
    (hnoop : ¬(level = 0 ∧ MR_port_is_entry event_info.MR_trace_port = true)) :
    MR_trace_cmd_retry .MR_RETRY_OK_FINISH_FIRST problem words event_info cmd0
        ten dpl st =
      (⟨.STOP_INTERACTING,
        { cmd0 with MR_trace_cmd := .MR_CMD_FINISH,
                    MR_trace_stop_depth := (event_info.MR_call_depth : Int) - level,
                    MR_trace_strict := true,
                    MR_trace_print_level := .MR_PRINT_LEVEL_NONE }, []⟩,
       MR_insert_line_at_head "retry -o" st) ∧
    (MR_trace_cmd_retry .MR_RETRY_OK_FINISH_FIRST problem words event_info cmd0
        ten dpl st).2.MR_line_head = "retry -o" :: st.MR_line_head := by
  have hmain : MR_trace_cmd_retry .MR_RETRY_OK_FINISH_FIRST problem words event_info
      cmd0 ten dpl st =
      (⟨.STOP_INTERACTING,
        { cmd0 with MR_trace_cmd := .MR_CMD_FINISH,
                    MR_trace_stop_depth := (event_info.MR_call_depth : Int) - level,
                    MR_trace_strict := true,
                    MR_trace_print_level := .MR_PRINT_LEVEL_NONE }, []⟩,
       MR_insert_line_at_head "retry -o" st) := by
    have hcond : (level == 0 && MR_port_is_entry event_info.MR_trace_port) = false := by
      rcases Nat.eq_zero_or_pos level with hz | hp
      · subst hz
        have : MR_port_is_entry event_info.MR_trace_port = false := by
          by_contra hx
          exact hnoop ⟨rfl, by simpa using hx⟩
        simp [this]
      · have : (level == 0) = false := by
          simp
          omega
        simp [this]
    rcases hargs with ⟨hw, hl⟩ | ⟨w, hw, hnat⟩
    · subst hw
      subst hl
      simp only [MR_trace_cmd_retry, MR_trace_options_retry, MR_parse_noarg_options]
      simp only [hcond, Bool.false_eq_true, if_false]
    · subst hw
      have hwopt := MR_natural_number_nonopt w level hnat
      have hopts : MR_trace_options_retry ⟨.MR_RETRY_IO_INTERACTIVE, false⟩ [w] =
          (⟨.MR_RETRY_IO_INTERACTIVE, false⟩, some [w]) :=
        MR_parse_noarg_options_start_nonopt MR_trace_retry_opts MR_retry_opt_apply
          ⟨.MR_RETRY_IO_INTERACTIVE, false⟩ w [] hwopt
      simp only [MR_trace_cmd_retry, hopts, hnat]
      simp only [hcond, Bool.false_eq_true, if_false]
  exact ⟨hmain, by rw [hmain]; rfl⟩

/-- Witness for C5: `retry 1` at depth 3 on an EXIT port with a finish-first
classification enqueues "retry -o" and finalizes FINISH with stop depth 2. -/
theorem c5_retry_finish_first_witness :
    MR_trace_cmd_retry .MR_RETRY_OK_FINISH_FIRST "" ["1"]
        ⟨10, 4, 3, .MR_PORT_EXIT, ⟨true, "det"⟩⟩
        ⟨.MR_CMD_GOTO, false, .MR_PRINT_LEVEL_SOME, 0, 0, false⟩ 10
        .MR_PRINT_LEVEL_SOME ⟨["pending"], [], false⟩ =
      (⟨.STOP_INTERACTING,
        ⟨.MR_CMD_FINISH, true, .MR_PRINT_LEVEL_NONE, 0, 2, false⟩, []⟩,
       ⟨["retry -o", "pending"], [], false⟩) ∧
    (MR_trace_cmd_retry .MR_RETRY_OK_FINISH_FIRST "" ["1"]
        ⟨10, 4, 3, .MR_PORT_EXIT, ⟨true, "det"⟩⟩
        ⟨.MR_CMD_GOTO, false, .MR_PRINT_LEVEL_SOME, 0, 0, false⟩ 10
        .MR_PRINT_LEVEL_SOME ⟨["pending"], [], false⟩).2.MR_line_head =
      "retry -o" :: ["pending"] := by
  have h := c5_retry_finish_first "" ["1"] ⟨10, 4, 3, .MR_PORT_EXIT, ⟨true, "det"⟩⟩
    ⟨.MR_CMD_GOTO, false, .MR_PRINT_LEVEL_SOME, 0, 0, false⟩ 10
    .MR_PRINT_LEVEL_SOME ⟨["pending"], [], false⟩ 1
    (Or.inr ⟨"1", rfl, rfl⟩) (by simp)
  exact ⟨by rw [h.1]; rfl, h.2⟩

theorem MR_takeWhile_dropWhile_append (p : Char → Bool) (ds rest : List Char)
    (hall : ds.all p = true) (hne : rest ≠ [])
    (hrest : p (rest.headD ' ') = false) :
    (ds ++ rest).takeWhile p = ds ∧ (ds ++ rest).dropWhile p = rest := by
  induction ds with
  | nil =>
    rcases rest with _ | ⟨r, rs⟩
    · exact absurd rfl hne
    · simp only [List.headD_cons] at hrest
      simp [List.takeWhile_cons, List.dropWhile_cons, hrest]
  | cons d ds ih =>
    simp only [List.all_cons, Bool.and_eq_true] at hall
    obtain ⟨hd, hall2⟩ := hall
    have hih := ih hall2
    simp [List.takeWhile_cons, List.dropWhile_cons, hd, hih.1, hih.2]

/-- Claim C7.  Parsing "3 step" and "step 3" both yield ["step", "3"] (and so
does the attached form "3step"); in general the swap step exchanges a leading
natural number with a non-numeric second word, and a first token of digits
followed by non-digit characters is split into a leading numeric word before
the swap. -/
theorem c7_numeric_prefix_normalization :
    MR_trace_parse_line "3 step" = Except.ok ["step", "3"] ∧
    MR_trace_parse_line "step 3" = Except.ok ["step", "3"] ∧
    MR_trace_parse_line "3step" = Except.ok ["step", "3"] ∧
    (∀ w0 w1 ws n, MR_trace_is_natural_number w0 = some n →
        MR_trace_is_natural_number w1 = none →
        MR_trace_parse_line_swap (w0 :: w1 :: ws) = w1 :: w0 :: ws) ∧
    (∀ ds rest ws, ds ≠ [] → ds.all MR_isdigit = true →
        ds.length ≤ MR_NUMBER_LEN → rest ≠ [] →
        MR_isdigit (rest.headD ' ') = false →
        MR_trace_parse_line_words (String.mk (ds ++ rest) :: ws) =
          Except.ok (MR_trace_parse_line_swap
            (String.mk ds :: String.mk rest :: ws))) := by
  refine ⟨rfl, rfl, rfl, ?_, ?_⟩
  · intro w0 w1 ws n h0 h1
    simp [MR_trace_parse_line_swap, h0, h1]
  · intro ds rest ws hne hall hlen hrne hrd
    have hsplit := MR_takeWhile_dropWhile_append MR_isdigit ds rest hall hrne hrd
    rcases ds with _ | ⟨d, ds2⟩
    · exact absurd rfl hne
    have hd : MR_isdigit d = true := by
      simp only [List.all_cons, Bool.and_eq_true] at hall
      exact hall.1
    simp only [MR_trace_parse_line_words]
    rw [show (((d :: ds2) ++ rest).headD ' ') = d from rfl]
    simp only [hd, eq_self_iff_true, if_true, hsplit.1, hsplit.2]
    have hgt : ¬((d :: ds2).length > MR_NUMBER_LEN) := by
      omega
    rw [if_neg hgt]
    have hre : rest.isEmpty = false := by
      rcases rest with _ | ⟨r, rs⟩
      · exact absurd rfl hrne
      · rfl
    simp [hre]

/-- Witness for C7: concrete instances of the swap and prefix-split rules. -/
theorem c7_numeric_prefix_normalization_witness :
    MR_trace_parse_line_swap ["7", "next", "x"] = ["next", "7", "x"] ∧
    MR_trace_parse_line_words [String.mk ("42".data ++ "go".data)] =
      Except.ok (MR_trace_parse_line_swap ["42", "go"]) :=
  ⟨c7_numeric_prefix_normalization.2.2.2.1 "7" "next" ["x"] 7 rfl rfl,
    c7_numeric_prefix_normalization.2.2.2.2 "42".data "go".data [] (by decide)
      (by decide) (by decide) (by decide) (by decide)⟩

/-- Claim C6.  The pager prompts `--more--` before printing a report exactly
when scrolling is enabled and the lines shown since the last pause plus the
print-list items to be shown would reach the configured page size once the
line the report itself occupies is counted (the code reserves one line for
the prompt: `MR_scroll_next + len >= MR_scroll_limit - 1`).  With page size
5 and scroll on, four plain reports print without a prompt and the fifth
attempt prompts.  The first non-blank reply character `a`/`n`/`s` overrides
the print level, `q` quits the report, the counter is reset, and any other
non-blank reply prints "unknown command, try again" and re-prompts. -/
theorem c6_scroll_pager (cmd : MR_Trace_Cmd_Info) :
    (∀ sc limit next pl st,
        (MR_trace_event_internal_report sc limit next pl cmd st).prompted =
          (sc && decide (limit ≤ next + pl.length + 1))) ∧
    ((MR_trace_event_internal_report true 5 0 [] cmd ⟨[], [], false⟩).prompted = false ∧
     (MR_trace_event_internal_report true 5 0 [] cmd ⟨[], [], false⟩).MR_scroll_next = 1 ∧
     (MR_trace_event_internal_report true 5 1 [] cmd ⟨[], [], false⟩).prompted = false ∧
     (MR_trace_event_internal_report true 5 1 [] cmd ⟨[], [], false⟩).MR_scroll_next = 2 ∧
     (MR_trace_event_internal_report true 5 2 [] cmd ⟨[], [], false⟩).prompted = false ∧
     (MR_trace_event_internal_report true 5 2 [] cmd ⟨[], [], false⟩).MR_scroll_next = 3 ∧
     (MR_trace_event_internal_report true 5 3 [] cmd ⟨[], [], false⟩).prompted = false ∧
     (MR_trace_event_internal_report true 5 3 [] cmd ⟨[], [], false⟩).MR_scroll_next = 4 ∧
     (MR_trace_event_internal_report true 5 4 [] cmd ⟨[], [], false⟩).prompted = true) ∧
    (∀ b reply, (reply.data.dropWhile MR_isspace).head? = some 'a' →
        MR_trace_event_internal_report true 5 4 [] cmd ⟨[], [some reply], b⟩ =
          ⟨true, false, { cmd with MR_trace_print_level := .MR_PRINT_LEVEL_ALL }, 1, [],
            ⟨[], [], true⟩⟩) ∧
    (∀ b reply, (reply.data.dropWhile MR_isspace).head? = some 'n' →
        MR_trace_event_internal_report true 5 4 [] cmd ⟨[], [some reply], b⟩ =
          ⟨true, false, { cmd with MR_trace_print_level := .MR_PRINT_LEVEL_NONE }, 1, [],
            ⟨[], [], true⟩⟩) ∧
    (∀ b reply, (reply.data.dropWhile MR_isspace).head? = some 's' →
        MR_trace_event_internal_report true 5 4 [] cmd ⟨[], [some reply], b⟩ =
          ⟨true, false, { cmd with MR_trace_print_level := .MR_PRINT_LEVEL_SOME }, 1, [],
            ⟨[], [], true⟩⟩) ∧
    (∀ b reply, (reply.data.dropWhile MR_isspace).head? = some 'q' →
        MR_trace_event_internal_report true 5 4 [] cmd ⟨[], [some reply], b⟩ =
          ⟨true, true, cmd, 4, [], ⟨[], [], true⟩⟩) ∧
    (∀ b bad c, (bad.data.dropWhile MR_isspace).head? = some c →
        c ≠ 'a' → c ≠ 'n' → c ≠ 's' → c ≠ 'q' →
        MR_trace_event_internal_report true 5 4 [] cmd ⟨[], [some bad, some "a"], b⟩ =
          ⟨true, false, { cmd with MR_trace_print_level := .MR_PRINT_LEVEL_ALL }, 1,
            ["unknown command, try again\n"], ⟨[], [], true⟩⟩) := by
  refine ⟨?_, ?_, ?_, ?_, ?_, ?_, ?_⟩
  · intro sc limit next pl st
    have hiff : (sc && decide (limit - 1 ≤ next + pl.length)) =
        (sc && decide (limit ≤ next + pl.length + 1)) := by
      cases sc
      · rfl
      · simp only [Bool.true_and]
        exact decide_eq_decide.mpr (by omega)
    rw [← hiff]
    simp only [MR_trace_event_internal_report]
    split
    · rename_i hcond
      rw [hcond]
      split <;> rfl
    · rename_i hcond
      simp only [Bool.not_eq_true] at hcond
      rw [hcond]
  · exact ⟨rfl, rfl, rfl, rfl, rfl, rfl, rfl, rfl, rfl⟩
  · intro b reply hhead
    simp only [MR_trace_event_internal_report, MR_pager_prompt_go, MR_trace_getline,
      MR_trace_getline_queue, MR_trace_readline, MR_ioMeasure]
    rw [hhead]
    rfl
  · intro b reply hhead
    simp only [MR_trace_event_internal_report, MR_pager_prompt_go, MR_trace_getline,
      MR_trace_getline_queue, MR_trace_readline, MR_ioMeasure]
    rw [hhead]
    rfl
  · intro b reply hhead
    simp only [MR_trace_event_internal_report, MR_pager_prompt_go, MR_trace_getline,
      MR_trace_getline_queue, MR_trace_readline, MR_ioMeasure]
    rw [hhead]
    rfl
  · intro b reply hhead
    simp only [MR_trace_event_internal_report, MR_pager_prompt_go, MR_trace_getline,
      MR_trace_getline_queue, MR_trace_readline, MR_ioMeasure]
    rw [hhead]
    rfl
  · intro b bad c hhead hca hcn hcs hcq
    have hba : (c == 'a') = false := by simp [hca]
    have hbn : (c == 'n') = false := by simp [hcn]
    have hbs : (c == 's') = false := by simp [hcs]
    have hbq : (c == 'q') = false := by simp [hcq]
    simp only [MR_trace_event_internal_report, MR_pager_prompt_go, MR_trace_getline,
      MR_trace_getline_queue, MR_trace_readline, MR_ioMeasure]
    rw [hhead]
    simp only [hba, hbn, hbs, hbq, Bool.false_eq_true, if_false]
    rfl

/-- Witness for C6: a reply of " x" re-prompts with "unknown command, try
again" and the follow-up "a" sets the print level to ALL; instantiated at a
concrete decision record. -/
theorem c6_scroll_pager_witness :
    ((" x".data.dropWhile MR_isspace).head? = some 'x') ∧
    MR_trace_event_internal_report true 5 4 []
        ⟨.MR_CMD_GOTO, false, .MR_PRINT_LEVEL_SOME, 0, 0, false⟩
        ⟨[], [some " x", some "a"], false⟩ =
      ⟨true, false, ⟨.MR_CMD_GOTO, false, .MR_PRINT_LEVEL_ALL, 0, 0, false⟩, 1,
        ["unknown command, try again\n"], ⟨[], [], true⟩⟩ :=
  ⟨rfl,
    (c6_scroll_pager ⟨.MR_CMD_GOTO, false, .MR_PRINT_LEVEL_SOME, 0, 0, false⟩).2.2.2.2.2.2
      false " x" 'x' rfl (by decide) (by decide) (by decide) (by decide)⟩

/-- Witness for C10: a cancelled quit (reply " n") keeps interacting with
only the confirmation line consumed. -/
theorem c10_quit_confirmation_witness :
    (MR_trace_getline ⟨[], [some " n"], false⟩).1 = some " n" ∧
    MR_trace_cmd_quit [] ⟨[], [some " n"], false⟩ =
      (.kept, (MR_trace_getline ⟨[], [some " n"], false⟩).2, []) :=
  ⟨rfl,
    (c10_quit_confirmation ⟨[], [some " n"], false⟩).2.2 " n" 'n' rfl rfl
      (by decide) (by decide)⟩

end Mercury
